import Mathlib

/-!
Verification of the termuxbot XMPP bot core (src/bot.py, src/commands.py,
src/scheduler.py) against its natural-language specification.

The Python string operations used by the source (`str.strip`, `str.split`,
`str.lower`, `str.replace`, `str.startswith`, slicing, f-string formatting of
ints) are embedded as executable Lean functions on `String`/`List Char`.
Python `set` is embedded as `Finset String`; the `room_users` dict, which is
always read through `.get(room, set())` and written only for joined rooms
(every joined room is given an entry in `join_room`), is embedded as a total
function `String → Finset String` defaulting to the empty set.
-/

/-- Singleton string constructor under our control so that everything reduces. -/
def str1 (c : Char) : String := ⟨[c]⟩

/-- Appending strings concatenates their character lists. -/
theorem pydata_append : ∀ s t : String, (s ++ t).data = s.data ++ t.data :=
  fun ⟨_⟩ ⟨_⟩ => rfl

/-- Python `str.strip()`: remove leading and trailing whitespace
(the source only ever strips ASCII whitespace in practice). -/
def pyStrip (s : String) : String :=
  ⟨((s.data.dropWhile Char.isWhitespace).reverse.dropWhile Char.isWhitespace).reverse⟩

/-- Python `str.lower()` (ASCII case folding, as used by the source). -/
def pyLower (s : String) : String := ⟨s.data.map Char.toLower⟩

/-- Python `str.startswith(p)`. -/
def pyStartsWith (s p : String) : Bool := p.data.isPrefixOf s.data

/-- Helper for Python `str.split()`: split a character list into
whitespace-delimited tokens, discarding empty tokens.  The accumulator holds
the characters of the token currently being read, in reverse. -/
def pyWordsAux : List Char → List Char → List String
  | [], acc => if acc.isEmpty then [] else [⟨acc.reverse⟩]
  | c :: rest, acc =>
    if c.isWhitespace then
      if acc.isEmpty then pyWordsAux rest [] else ⟨acc.reverse⟩ :: pyWordsAux rest []
    else pyWordsAux rest (c :: acc)

/-- Python `str.split()` with no separator argument. -/
def pyWords (s : String) : List String := pyWordsAux s.data []

/-- Helper for Python `str.replace(pat, rep)` with a nonempty pattern: scan
left to right, replacing each non-overlapping occurrence.  The first argument
is fuel; any fuel at least the length of the scanned list gives the scan's
true result. -/
def pyReplaceAux (pat rep : List Char) : Nat → List Char → List Char
  | 0, s => s
  | _ + 1, [] => []
  | fuel + 1, c :: rest =>
    if pat ≠ [] ∧ pat.isPrefixOf (c :: rest) then
      rep ++ pyReplaceAux pat rep fuel (List.drop (pat.length - 1) rest)
    else
      c :: pyReplaceAux pat rep fuel rest

/-- Python `str.replace(pat, rep)` (all occurrences, left to right). -/
def pyReplace (s pat rep : String) : String :=
  ⟨pyReplaceAux pat.data rep.data s.data.length s.data⟩

/-- Decimal digits of a natural number, most significant first, as Python
f-string formatting of a nonnegative int produces them.  The first argument
is fuel; `n + 1` fuel always suffices. -/
def natDecAux : Nat → Nat → List Char
  | 0, _ => []
  | fuel + 1, n =>
    if n < 10 then [Nat.digitChar n]
    else natDecAux fuel (n / 10) ++ [Nat.digitChar (n % 10)]

/-- Decimal rendering of a natural number. -/
def natDec (n : Nat) : String := ⟨natDecAux (n + 1) n⟩

section CommandHandler

/-!
`src/commands.py` — `CommandHandler`.  The registry `self.commands` maps the
five command names to handlers; `process_command` tokenizes, case-folds the
first token, and either invokes the handler or returns the unknown-command
response.  Handler invocation is effectful in the source, so dispatch is
embedded as a result datatype recording what `process_command` decides to do.
-/

/-- The keys of the `self.commands` dict in `CommandHandler.__init__`. -/
def commands_list : List String := ["ping", "help", "time", "status", "uptime"]

/-- Outcome of `CommandHandler.process_command`: no response (`None`),
invocation of a registered handler, or the unknown-command response. -/
inductive Dispatch where
  | noResponse : Dispatch
  | invoke (cmd : String) (args : List String) : Dispatch
  | unknown (resp : String) : Dispatch
deriving DecidableEq

/-- A single-quote character, for building the source's f-strings. -/
def squot : String := str1 '\x27'

/-- The f-string `f"❓ Unknown command '{command}'. Type 'help' for available
commands."` from `process_command`. -/
def unknown_response (command : String) : String :=
  "❓ Unknown command " ++ squot ++ command ++ squot ++ ". Type " ++ squot ++ "help"
    ++ squot ++ " for available commands."

/-- Embedding of `CommandHandler.process_command` (src/commands.py lines 31-54): empty text
gives no response; otherwise strip, tokenize on whitespace, case-fold the
first token; registered commands are invoked with the remaining tokens as
arguments, anything else produces the unknown-command response. -/
def process_command (command_text : String) : Dispatch :=
  if command_text = "" then .noResponse
  else
    match pyWords (pyStrip command_text) with
    | [] => .noResponse
    | cmd :: args =>
      let command := pyLower cmd
      if command ∈ commands_list then .invoke command args
      else .unknown (unknown_response command)

/-- Allowed characters of the hostname pattern `^[a-zA-Z0-9.-]+$`. -/
def hostChar (c : Char) : Bool := c.isAlpha || c.isDigit || c = '.' || c = '-'

/-- Boolean value of `re.match(r'^[a-zA-Z0-9.-]+$', s)`: the pattern
matches `s` iff `s` is a nonempty run of allowed characters, or such a run
followed by one final newline (Python's `$` also matches just before a
newline that ends the string). -/
def re_match_hostname (s : List Char) : Bool :=
  (!s.isEmpty && s.all hostChar) ||
    (s.getLast? = some '\n' && !s.dropLast.isEmpty && s.dropLast.all hostChar)

/-- Embedding of `CommandHandler.is_valid_hostname` (src/commands.py lines 162-167):
`bool(re.match(r'^[a-zA-Z0-9.-]+$', hostname)) and len(hostname) <= 253`. -/
def is_valid_hostname (hostname : String) : Bool :=
  re_match_hostname hostname.data && hostname.data.length ≤ 253

/-- The claim's own acceptance condition, written from the spec's words:
"alphanumerics, dot, hyphen only; length ≤ 253". Used only to compare the
source's validator against the specified one. -/
def spec_hostname_allowed (hostname : String) : Bool :=
  hostname.data.all hostChar && hostname.data.length ≤ 253

/-- What `cmd_ping` decides to do before any I/O happens. -/
inductive PingAction where
  | validationError (resp : String) : PingAction
  | probe (target : String) : PingAction
deriving DecidableEq

/-- Pre-I/O behaviour of `CommandHandler.cmd_ping` (src/commands.py lines
56-62): `target = args[0] if args else "google.com"`; an invalid target
returns `"❌ Invalid hostname format"` with no subprocess started, a valid one
proceeds to the external ping probe of `target`. -/
def cmd_ping_action (args : List String) : PingAction :=
  let target := args.headD ("google.com")
  if is_valid_hostname target then .probe target
  else .validationError ("❌ Invalid hostname format")

/-- The `uptime_str` accumulation in `CommandHandler.cmd_uptime`
(src/commands.py lines 142-160), for an elapsed whole number of seconds. -/
def uptime_str (uptime_seconds : Nat) : String :=
  let days := uptime_seconds / 86400
  let hours := (uptime_seconds % 86400) / 3600
  let minutes := (uptime_seconds % 3600) / 60
  let seconds := uptime_seconds % 60
  (if days > 0 then natDec days ++ "d " else "") ++
    (if hours > 0 then natDec hours ++ "h " else "") ++
      (if minutes > 0 then natDec minutes ++ "m " else "") ++
        natDec seconds ++ "s"

/-- The full `cmd_uptime` response `f"⏱️ Bot uptime: {uptime_str.strip()}"`. -/
def cmd_uptime (uptime_seconds : Nat) : String :=
  "⏱️ Bot uptime: " ++ pyStrip (uptime_str uptime_seconds)

end CommandHandler

section JabberBot

/-!
`src/bot.py` — `JabberBot`.  The mutable collections `self.joined_rooms`
(a Python set of room JIDs) and `self.room_users` (a dict from room JID to a
set of nicknames) are the volatile membership state.
-/

/-- The membership state of `JabberBot`: `joined_rooms` and `room_users`.
`room_users` is read via `.get(room, set())`, so it is embedded as a total
function defaulting to the empty set; `join_room` gives every joined room an
entry, so the dict write `room_users[room].add(nick)` (performed only for
joined rooms) never faults. -/
structure BotState where
  joined_rooms : Finset String
  room_users : String → Finset String

/-- A welcome message event `{room, nickname}` produced by the presence
handler (the `user_welcome_message` send). -/
structure Welcome where
  room : String
  nick : String
deriving DecidableEq

/-- State change of `JabberBot.join_room` (src/bot.py lines 66-88):
`self.joined_rooms.add(room_jid)` and `self.room_users[room_jid] = set()`. -/
def join_room (st : BotState) (room : String) : BotState :=
  { joined_rooms := insert room st.joined_rooms,
    room_users := Function.update st.room_users room ∅ }

/-- Embedding of `JabberBot.muc_presence_handler` (src/bot.py lines 134-154).  The handler
receives the presence's room and nickname together with its online/offline
flag (`isOnline`, the polarity of the presence stanza); the source never
inspects that flag.  If the room is joined, the nickname is not yet recorded
and differs from the bot's configured nickname, the nickname is added and a
welcome event is produced; in every other case state is unchanged and nothing
is produced. -/
def muc_presence_handler (cfg_nickname : String) (st : BotState)
    (room nick : String) (_isOnline : Bool) : BotState × Option Welcome :=
  if room ∈ st.joined_rooms then
    if nick ∉ st.room_users room then
      if nick ≠ cfg_nickname then
        ({ st with
            room_users := Function.update st.room_users room
              (insert nick (st.room_users room)) },
          some ⟨room, nick⟩)
      else (st, none)
    else (st, none)
  else (st, none)

/-- Iteration of `n` repeated presence events for the same room/nickname/flag, returning
the final state and how many welcome events were produced. -/
def presence_iter (cfg_nickname : String) (st : BotState) (room nick : String)
    (isOnline : Bool) : Nat → BotState × Nat
  | 0 => (st, 0)
  | n + 1 =>
    let r := muc_presence_handler cfg_nickname st room nick isOnline
    let rest := presence_iter cfg_nickname r.1 room nick isOnline n
    (rest.1, (if r.2.isSome then 1 else 0) + rest.2)

/-- The command-text extraction of `JabberBot.handle_group_message`
(src/bot.py lines 109-132): self messages are ignored; the body is stripped;
a body starting with `f"{nickname}:"` or `"!"` has every occurrence of
`f"{nickname}:"` removed by `str.replace`, is stripped again, loses one
leading `"!"` if present, and the result is forwarded to
`process_command`; other bodies are not dispatched.  `some t` means command
text `t` is forwarded, `none` means no dispatch happens. -/
def handle_group_message (cfg_nickname mucnick body : String) : Option String :=
  if mucnick = cfg_nickname then none
  else
    let body' := pyStrip body
    if pyStartsWith body' (cfg_nickname ++ ":") || pyStartsWith body' ("!") then
      let command := pyStrip (pyReplace body' (cfg_nickname ++ ":") (""))
      let command := if pyStartsWith command ("!") then ⟨command.data.tail⟩ else command
      some command
    else none

/-- A bot state with no joined rooms and no recorded occupants. -/
def emptyBot : BotState := ⟨∅, fun _ => ∅⟩

/-- A bot state that has joined `"room@conf"` and recorded occupant
`"alice"` there. -/
def occupiedBot : BotState :=
  (muc_presence_handler ("Bot") (join_room emptyBot ("room@conf")) ("room@conf")
    ("alice") true).1

end JabberBot

section Scheduler

/-!
`src/scheduler.py` — `MessageScheduler`, and `JabberBot.disconnected_handler`
which stops it.

The wait computation of `_schedule_loop` works on timezone-aware datetimes in
the configured fixed offset; with a fixed offset, local time is a constant
shift of absolute time, so a datetime is embedded as the number of
microseconds since an (hour-aligned) epoch of that local clock.
`now.replace(minute=0, second=0, microsecond=0) + timedelta(hours=1)` is then
truncation to the hour boundary followed by adding one hour.
-/

/-- Microseconds in one hour. -/
def hour_us : Nat := 3600000000

/-- The `next_hour` computation of `MessageScheduler._schedule_loop` (src/scheduler.py lines
39-46): `now.replace(minute=0, second=0, microsecond=0) + timedelta(hours=1)`
for a fixed-offset local clock measured in microseconds. -/
def next_top_of_hour_us (now : Nat) : Nat := (now / hour_us + 1) * hour_us

/-- The `wait_seconds` value of `_schedule_loop`, in microseconds:
`(next_hour - now).total_seconds()`. -/
def wait_us (now : Nat) : Nat := next_top_of_hour_us now - now

/-- Local clock reading `h:m:s.µs` on day `d`, in microseconds. -/
def clock_us (d h m s micro : Nat) : Nat :=
  ((d * 24 + h) * 3600 + m * 60 + s) * 1000000 + micro

/-- Where the scheduler's task currently is in `_schedule_loop`:
no live task / suspended in `asyncio.sleep(wait_seconds)` / resumed after the
sleep but before the `if self.running` re-check / suspended in the 60-second
error backoff of the `except Exception` branch. -/
inductive SchedPhase where
  | idle : SchedPhase
  | sleeping : SchedPhase
  | readyToFire : SchedPhase
  | backoff : SchedPhase
deriving DecidableEq

/-- Control state of `MessageScheduler`: the `self.running` flag and the task's
position in the loop. -/
structure Sched where
  running : Bool
  phase : SchedPhase
deriving DecidableEq

/-- Embedding of `MessageScheduler.start` (src/scheduler.py lines 20-25): guarded by
`if not self.running`, sets the flag and launches `_schedule_loop`, which
computes the wait and suspends; a running scheduler is left untouched. -/
def schedStart (s : Sched) : Sched :=
  if s.running then s else ⟨true, .sleeping⟩

/-- Embedding of `MessageScheduler.stop` (src/scheduler.py lines 27-32): clears
`self.running` and cancels the task.  A task suspended in either sleep
receives `CancelledError` there; a task resumed with a pending cancellation
request receives it on resumption before reaching another await; either way
the task terminates without firing, so the stopped state has no live task. -/
def schedStop (_s : Sched) : Sched := ⟨false, .idle⟩

/-- Atomic steps of the cooperative scheduler, as observed between await
points of `_schedule_loop` (src/scheduler.py lines 34-60). -/
inductive SchedLabel where
  | start : SchedLabel
  | stop : SchedLabel
  | sleepDone : SchedLabel
  | fire : SchedLabel
  | skip : SchedLabel
  | error : SchedLabel
  | restart : SchedLabel
deriving DecidableEq

/-- One step of the scheduler system.  `start`/`stop` are the public calls;
`sleepDone` is `asyncio.sleep(wait_seconds)` returning; `fire` is the
`if self.running: await self.bot.send_hourly_message()` branch taken (and the
loop continuing to the next wait); `skip` is that guard failing, ending the
loop; `error` is an exception escaping to the `except Exception` handler;
`restart` is that handler's `if self.running` branch relaunching the loop
after its backoff.  `none` means the label is not enabled in this state. -/
def schedStep (s : Sched) : SchedLabel → Option Sched
  | .start => some (schedStart s)
  | .stop => some (schedStop s)
  | .sleepDone => if s.phase = .sleeping then some ⟨s.running, .readyToFire⟩ else none
  | .fire =>
    if s.running ∧ s.phase = .readyToFire then some ⟨true, .sleeping⟩ else none
  | .skip =>
    if ¬s.running ∧ s.phase = .readyToFire then some ⟨false, .idle⟩ else none
  | .error =>
    if s.running ∧ s.phase = .readyToFire then some ⟨true, .backoff⟩ else none
  | .restart =>
    if s.running ∧ s.phase = .backoff then some ⟨true, .sleeping⟩ else none

/-- Run a sequence of scheduler steps; `none` if some step is not enabled. -/
def schedRun (s : Sched) : List SchedLabel → Option Sched
  | [] => some s
  | l :: ls => (schedStep s l).bind (fun s' => schedRun s' ls)

/-- State change of `JabberBot.disconnected_handler` (src/bot.py lines
161-168): it calls `self.scheduler.stop()`, then merely sleeps and logs; the
membership state is not touched. -/
def disconnected_handler (st : BotState) (sch : Sched) : BotState × Sched :=
  (st, schedStop sch)

end Scheduler

section Helpers

/-- Prepending the empty string to a string is the identity. -/
theorem pynil_append : ∀ s : String, ("" ++ s) = s := fun ⟨_⟩ => rfl

/-- The character `Nat.digitChar k` for `k` below ten is a digit. -/
theorem digitChar_isDigit (k : Nat) (h : k < 10) : (Nat.digitChar k).isDigit = true := by
  interval_cases k <;> decide

/-- Every character produced by `natDecAux` is a digit. -/
theorem natDecAux_digits (fuel : Nat) :
    ∀ n c, c ∈ natDecAux fuel n → c.isDigit = true := by
  induction fuel with
  | zero => intro n c h; simp [natDecAux] at h
  | succ f ih =>
    intro n c h
    by_cases h10 : n < 10
    · simp [natDecAux, h10] at h
      subst h
      exact digitChar_isDigit n h10
    · simp [natDecAux, h10] at h
      rcases h with h | h
      · exact ih _ _ h
      · subst h
        exact digitChar_isDigit _ (Nat.mod_lt _ (by omega))

/-- Every character of a decimal rendering is a digit. -/
theorem natDec_digits (n : Nat) (c : Char) (h : c ∈ (natDec n).data) :
    c.isDigit = true :=
  natDecAux_digits (n + 1) n c h

/-- The presence handler adds an absent, non-bot nickname of a joined room and
produces the welcome event (src/bot.py lines 139-154). -/
theorem muc_presence_add (cfg : String) (st : BotState) (room nick : String)
    (b : Bool) (h1 : room ∈ st.joined_rooms) (h2 : nick ∉ st.room_users room)
    (h3 : nick ≠ cfg) :
    muc_presence_handler cfg st room nick b =
      ({ st with
          room_users := Function.update st.room_users room
            (insert nick (st.room_users room)) },
        some ⟨room, nick⟩) := by
  simp [muc_presence_handler, h1, h2, h3]

/-- The presence handler leaves the state alone and produces nothing when the
nickname is already recorded, is the bot's own, or the room is not joined. -/
theorem muc_presence_noop (cfg : String) (st : BotState) (room nick : String)
    (b : Bool)
    (h : nick ∈ st.room_users room ∨ nick = cfg ∨ room ∉ st.joined_rooms) :
    muc_presence_handler cfg st room nick b = (st, none) := by
  unfold muc_presence_handler
  rcases h with hh | hh | hh
  · simp [hh]
  · simp [hh]
  · simp [hh]

/-- The presence handler never removes a recorded nickname from any room. -/
theorem muc_presence_mono (cfg : String) (st : BotState) (room nick : String)
    (b : Bool) (r m : String) (h : m ∈ st.room_users r) :
    m ∈ (muc_presence_handler cfg st room nick b).1.room_users r := by
  unfold muc_presence_handler
  by_cases h1 : room ∈ st.joined_rooms
  · by_cases h2 : nick ∈ st.room_users room
    · simp [h1, h2]
      exact h
    · by_cases h3 : nick = cfg
      · simp [h1, h2, h3]
        exact h
      · simp [h1, h2, h3]
        by_cases hr : r = room
        · subst hr
          rw [Function.update_same]
          exact Finset.mem_insert_of_mem h
        · rw [Function.update_noteq hr]
          exact h
  · simp [h1]
    exact h

/-- Once the nickname is recorded, any number of further presence events for
it leave the state unchanged and produce no welcome events. -/
theorem presence_iter_absorbed (cfg : String) (st : BotState) (room nick : String)
    (b : Bool) (k : Nat) (h : nick ∈ st.room_users room) :
    presence_iter cfg st room nick b k = (st, 0) := by
  induction k with
  | zero => rfl
  | succ k ih =>
    simp [presence_iter, muc_presence_noop cfg st room nick b (Or.inl h), ih]

/-- No scheduler step other than `start` can set the running flag. -/
theorem schedStep_not_running (s : Sched) (l : SchedLabel) (s' : Sched)
    (hl : l ≠ SchedLabel.start) (hs : schedStep s l = some s')
    (hr : s.running = false) : s'.running = false := by
  cases l with
  | start => exact absurd rfl hl
  | stop =>
    simp [schedStep, schedStop] at hs
    subst hs
    rfl
  | sleepDone =>
    simp [schedStep] at hs
    rcases hs with ⟨h1, h2⟩
    subst h2
    exact hr
  | fire =>
    simp [schedStep] at hs
    rcases hs with ⟨⟨h1, h2⟩, h3⟩
    rw [h1] at hr
    cases hr
  | skip =>
    simp [schedStep] at hs
    rcases hs with ⟨⟨h1, h2⟩, h3⟩
    subst h3
    rfl
  | error =>
    simp [schedStep] at hs
    rcases hs with ⟨⟨h1, h2⟩, h3⟩
    rw [h1] at hr
    cases hr
  | restart =>
    simp [schedStep] at hs
    rcases hs with ⟨⟨h1, h2⟩, h3⟩
    rw [h1] at hr
    cases hr

/-- A fire step is only enabled while the running flag is set. -/
theorem schedStep_fire_running (s : Sched) (s' : Sched)
    (hs : schedStep s SchedLabel.fire = some s') : s.running = true := by
  simp [schedStep] at hs
  exact hs.1.1

/-- From a non-running state, a run that never calls `start` never fires. -/
theorem schedRun_no_fire (ls : List SchedLabel) :
    ∀ s s' : Sched, s.running = false → SchedLabel.start ∉ ls →
      schedRun s ls = some s' → SchedLabel.fire ∉ ls := by
  induction ls with
  | nil => intro s s' _ _ _ h; cases h
  | cons l ls ih =>
    intro s s' hr hstart hrun hfire
    rcases List.ne_and_not_mem_of_not_mem_cons hstart with ⟨hl1, hl2⟩
    simp only [schedRun] at hrun
    rcases hstep : schedStep s l with _ | s1
    · rw [hstep] at hrun
      simp at hrun
    · rw [hstep] at hrun
      simp only [Option.some_bind] at hrun
      rcases List.mem_cons.mp hfire with hf | hf
      · subst hf
        have := schedStep_fire_running s s1 hstep
        rw [hr] at this
        cases this
      · exact ih s1 s' (schedStep_not_running s l s1 (fun e => hl1 e.symm) hstep hr) hl2 hrun hf

/-- Characters of an optional `natDec x ++ unit` field of `uptime_str`: the
field is nonempty only when its value is positive, and contributes only
digits and the unit's characters. -/
theorem mem_opt_field (x : Nat) (u : String) (c : Char)
    (hc : c ∈ ((if x > 0 then natDec x ++ u else "")).data) :
    x > 0 ∧ (c.isDigit = true ∨ c ∈ u.data) := by
  by_cases hx : x > 0
  · rw [if_pos hx, pydata_append] at hc
    rcases List.mem_append.mp hc with hc | hc
    · exact ⟨hx, Or.inl (natDec_digits x c hc)⟩
    · exact ⟨hx, Or.inr hc⟩
  · rw [if_neg hx] at hc
    cases hc

/-- Every character of `uptime_str n` is a digit, a unit letter whose field
is present because the corresponding component of `n` is nonzero, the final
`'s'`, or a space. -/
theorem uptime_str_chars (n : Nat) (c : Char) (hc : c ∈ (uptime_str n).data) :
    c.isDigit = true ∨ (c = 'd' ∧ 86400 ≤ n) ∨ (c = 'h' ∧ 3600 ≤ n % 86400) ∨
      (c = 'm' ∧ 60 ≤ n % 3600) ∨ c = 's' ∨ c = ' ' := by
  have hds : (("d ") : String).data = ['d', ' '] := rfl
  have hhs : (("h ") : String).data = ['h', ' '] := rfl
  have hms : (("m ") : String).data = ['m', ' '] := rfl
  have hss : (("s") : String).data = ['s'] := rfl
  simp only [uptime_str, pydata_append, List.mem_append] at hc
  rcases hc with (((hA | hB) | hC) | hD) | hE
  · obtain ⟨hx, h1⟩ := mem_opt_field _ _ c hA
    rcases h1 with h1 | h1
    · exact Or.inl h1
    · have h2 : c = 'd' ∨ c = ' ' := by
        simp only [hds, List.mem_cons, List.not_mem_nil, or_false] at h1
        exact h1
      rcases h2 with h2 | h2
      · exact Or.inr (Or.inl ⟨h2, by omega⟩)
      · exact Or.inr (Or.inr (Or.inr (Or.inr (Or.inr h2))))
  · obtain ⟨hx, h1⟩ := mem_opt_field _ _ c hB
    rcases h1 with h1 | h1
    · exact Or.inl h1
    · have h2 : c = 'h' ∨ c = ' ' := by
        simp only [hhs, List.mem_cons, List.not_mem_nil, or_false] at h1
        exact h1
      rcases h2 with h2 | h2
      · exact Or.inr (Or.inr (Or.inl ⟨h2, by omega⟩))
      · exact Or.inr (Or.inr (Or.inr (Or.inr (Or.inr h2))))
  · obtain ⟨hx, h1⟩ := mem_opt_field _ _ c hC
    rcases h1 with h1 | h1
    · exact Or.inl h1
    · have h2 : c = 'm' ∨ c = ' ' := by
        simp only [hms, List.mem_cons, List.not_mem_nil, or_false] at h1
        exact h1
      rcases h2 with h2 | h2
      · exact Or.inr (Or.inr (Or.inr (Or.inl ⟨h2, by omega⟩)))
      · exact Or.inr (Or.inr (Or.inr (Or.inr (Or.inr h2))))
  · exact Or.inl (natDec_digits _ c hD)
  · have h2 : c = 's' := by
      simp only [hss, List.mem_cons, List.not_mem_nil, or_false] at hE
      exact hE
    exact Or.inr (Or.inr (Or.inr (Or.inr (Or.inl h2))))

end Helpers

section Claims

/-- C1 counterexample: the source never inspects the presence's
online/offline flag.  With bot nickname `"Bot"`, starting from a freshly
joined `"room@conf"`, the offline event `onPresence("room@conf", "alice",
false)` returns a welcome event (the claim says it must return none), and a
second offline event for the now-present `"alice"` leaves her in the occupant
set (the claim says she must be removed). -/
theorem muc_presence_offline_cex :
    (muc_presence_handler ("Bot") (join_room emptyBot ("room@conf")) ("room@conf")
        ("alice") false).2 = some ⟨"room@conf", "alice"⟩ ∧
      (muc_presence_handler ("Bot")
          (muc_presence_handler ("Bot") (join_room emptyBot ("room@conf"))
            ("room@conf") ("alice") false).1
          ("room@conf") ("alice") false).1.room_users ("room@conf") = {"alice"} := by
  decide

/-- C1 (amended): `muc_presence_handler` ignores the online/offline flag — an
offline event behaves exactly like an online one.  An event for an
already-present nickname, the bot's own nickname, or an unjoined room returns
no welcome event and leaves the state unchanged, and no presence event ever
removes a recorded nickname from any room's occupant set. -/
theorem muc_presence_offline_behaviour (cfg : String) (st : BotState)
    (room nick : String) (b b' : Bool) :
    muc_presence_handler cfg st room nick b = muc_presence_handler cfg st room nick b' ∧
    ((nick ∈ st.room_users room ∨ nick = cfg ∨ room ∉ st.joined_rooms) →
      muc_presence_handler cfg st room nick b = (st, none)) ∧
    (∀ r m, m ∈ st.room_users r →
      m ∈ (muc_presence_handler cfg st room nick b).1.room_users r) :=
  ⟨rfl, muc_presence_noop cfg st room nick b,
    fun r m h => muc_presence_mono cfg st room nick b r m h⟩

/-- C1 witness: the amended theorem applied at a concrete unjoined room. -/
theorem muc_presence_offline_behaviour_witness :
    ("room@x") ∉ (join_room emptyBot ("room@conf")).joined_rooms ∧
      muc_presence_handler ("Bot") (join_room emptyBot ("room@conf")) ("room@x")
        ("alice") false = (join_room emptyBot ("room@conf"), none) :=
  ⟨by decide,
    (muc_presence_offline_behaviour ("Bot") (join_room emptyBot ("room@conf"))
        ("room@x") ("alice") false false).2.1 (Or.inr (Or.inr (by decide)))⟩

/-- C2 counterexample: `disconnected_handler` only stops the scheduler; run
on a state that has joined `"room@conf"` with occupant `"alice"`, the
joined-rooms collection and the room's occupant set are both still nonempty
afterwards, while the claim says both are cleared. -/
theorem disconnected_handler_cex :
    (disconnected_handler occupiedBot ⟨true, SchedPhase.sleeping⟩).1.joined_rooms
        ≠ (∅ : Finset String) ∧
      (disconnected_handler occupiedBot ⟨true, SchedPhase.sleeping⟩).1.room_users
        ("room@conf") ≠ (∅ : Finset String) := by
  decide

/-- C2 (amended): on the disconnected signal the core stops the Scheduler
(its running flag is cleared and its task terminates), but the volatile
joined-rooms collection and per-room occupant sets are left untouched; they
are only re-initialised room by room when rooms are rejoined after the next
session start. -/
theorem disconnected_handler_behaviour (st : BotState) (sch : Sched) :
    (disconnected_handler st sch).2.running = false ∧
    (disconnected_handler st sch).2.phase = SchedPhase.idle ∧
    (disconnected_handler st sch).1 = st :=
  ⟨rfl, rfl, rfl⟩

/-- C6: for every current time (of the configured fixed-offset clock,
measured in microseconds), the computed next top-of-hour boundary is strictly
after now and the wait duration satisfies `0 < wait ≤ 3600` seconds; for
now = 14:23:10 the boundary is 15:00:00 and the wait is 2210 seconds. -/
theorem scheduler_wait_bounds :
    (∀ now : Nat, now < next_top_of_hour_us now ∧
      0 < wait_us now ∧ wait_us now ≤ hour_us) ∧
    next_top_of_hour_us (clock_us 0 14 23 10 0) = clock_us 0 15 0 0 0 ∧
    wait_us (clock_us 0 14 23 10 0) = 2210 * 1000000 := by
  refine ⟨fun now => ?_, by decide, by decide⟩
  unfold wait_us next_top_of_hour_us hour_us
  omega

/-- C7: for a joined room and a nickname that differs from the bot's and is
not yet recorded, a sequence of `n ≥ 1` repeated online presence events
yields exactly one welcome event, and afterwards the room's occupant set is
the original set with the nickname added (so it contains it exactly once —
occupant sets are sets); the duplicate events change nothing. -/
theorem presence_idempotent (cfg : String) (st : BotState) (room nick : String)
    (n : Nat) (hn : 1 ≤ n) (hroom : room ∈ st.joined_rooms)
    (habs : nick ∉ st.room_users room) (hnick : nick ≠ cfg) :
    (presence_iter cfg st room nick true n).2 = 1 ∧
    (presence_iter cfg st room nick true n).1.room_users room
      = insert nick (st.room_users room) := by
  obtain ⟨k, rfl⟩ : ∃ k, n = k + 1 := ⟨n - 1, by omega⟩
  have hadd := muc_presence_add cfg st room nick true hroom habs hnick
  have hmem : nick ∈ (Function.update st.room_users room
      (insert nick (st.room_users room))) room := by
    rw [Function.update_same]
    exact Finset.mem_insert_self nick _
  have htail := presence_iter_absorbed cfg
    { st with room_users := (Function.update st.room_users room (insert nick (st.room_users room))) }
    room nick true k hmem
  simp only [presence_iter, hadd, htail]
  constructor
  · simp
  · simp [Function.update_same]

/-- C7 witness: three repeated online events for `"alice"` in a freshly
joined room produce exactly one welcome event. -/
theorem presence_idempotent_witness :
    1 ≤ 3 ∧
      (presence_iter ("Bot") (join_room emptyBot ("room@conf")) ("room@conf")
        ("alice") true 3).2 = 1 :=
  ⟨by decide,
    (presence_idempotent ("Bot") (join_room emptyBot ("room@conf")) ("room@conf")
        ("alice") 3 (by decide) (by decide) (by decide) (by decide)).1⟩

/-- C8: `stop()` clears the running flag and leaves no task suspended in a
wait (the in-flight wait is aborted); `stop()` and `start()` are idempotent;
a fire step is only ever enabled while the scheduler is running; and from a
just-stopped scheduler, no run of steps that does not contain a `start` can
contain a fire. -/
theorem scheduler_stop_semantics :
    (∀ s : Sched, (schedStop s).running = false ∧
      (schedStop s).phase ≠ SchedPhase.sleeping) ∧
    (∀ s : Sched, schedStop (schedStop s) = schedStop s) ∧
    (∀ s : Sched, schedStart (schedStart s) = schedStart s) ∧
    (∀ s s' : Sched, schedStep s SchedLabel.fire = some s' → s.running = true) ∧
    (∀ (s s' : Sched) (ls : List SchedLabel), SchedLabel.start ∉ ls →
      schedRun (schedStop s) ls = some s' → SchedLabel.fire ∉ ls) := by
  refine ⟨fun s => ⟨rfl, by simp [schedStop]⟩, fun s => rfl, fun s => ?_,
    fun s s' h => schedStep_fire_running s s' h,
    fun s s' ls h1 h2 => schedRun_no_fire ls (schedStop s) s' rfl h1 h2⟩
  by_cases h : s.running = true
  · simp [schedStart, h]
  · simp [schedStart, h]

/-- C8 witness: stopping a running, sleeping scheduler and then issuing a
redundant `stop` involves no fire. -/
theorem scheduler_stop_semantics_witness :
    SchedLabel.start ∉ [SchedLabel.stop] ∧ SchedLabel.fire ∉ [SchedLabel.stop] :=
  ⟨by decide,
    scheduler_stop_semantics.2.2.2.2 ⟨true, SchedPhase.sleeping⟩
      ⟨false, SchedPhase.idle⟩ [SchedLabel.stop] (by decide) (by decide)⟩

/-- C10: `cmd_ping` with an empty argument list probes the default target
`"google.com"`, which passes hostname validation. -/
theorem cmd_ping_default_target :
    cmd_ping_action [] = PingAction.probe ("google.com") ∧
    is_valid_hostname ("google.com") = true := by
  decide

/-- C3 counterexample: the addressing strip uses `str.replace`, which removes
every occurrence of `"<nickname>:"`, not only the leading prefix.  For body
`"Bot: say Bot: hi"` with bot nickname `"Bot"`, stripping exactly the leading
`"Bot:"` prefix would dispatch `"say Bot: hi"`, but the code dispatches
`"say  hi"`. -/
theorem handle_group_message_cex :
    handle_group_message ("Bot") ("alice") ("Bot: say Bot: hi") = some ("say  hi") ∧
      handle_group_message ("Bot") ("alice") ("Bot: say Bot: hi")
        ≠ some ("say Bot: hi") := by
  decide

/-- C3 (amended): group messages from the bot itself are never dispatched;
bodies whose stripped form begins with neither `"<nickname>:"` nor `"!"` are
never dispatched; an addressed body has every occurrence of `"<nickname>:"`
removed (not only the leading one), is whitespace-trimmed, and loses one
leading `"!"` if one remains, and the result is the dispatched command text.
In particular `"Bot: help"` dispatches `"help"`, `"!time"` dispatches
`"time"`, `"hello everyone"` dispatches nothing, `"Bot: !time"` dispatches
`"time"`, `"!!time"` dispatches `"!time"`, and `"Bot: say Bot: hi"`
dispatches `"say  hi"`. -/
theorem handle_group_message_routing :
    (∀ cfg nick body : String, nick = cfg →
      handle_group_message cfg nick body = none) ∧
    (∀ cfg nick body : String,
      pyStartsWith (pyStrip body) (cfg ++ ":") = false →
      pyStartsWith (pyStrip body) ("!") = false →
      handle_group_message cfg nick body = none) ∧
    handle_group_message ("Bot") ("alice") ("Bot: help") = some ("help") ∧
    handle_group_message ("Bot") ("alice") ("!time") = some ("time") ∧
    handle_group_message ("Bot") ("alice") ("hello everyone") = none ∧
    handle_group_message ("Bot") ("alice") ("Bot: !time") = some ("time") ∧
    handle_group_message ("Bot") ("alice") ("!!time") = some ("!time") ∧
    handle_group_message ("Bot") ("alice") ("Bot: say Bot: hi") = some ("say  hi") := by
  refine ⟨fun cfg nick body h => ?_, fun cfg nick body h1 h2 => ?_,
    by decide, by decide, by decide, by decide, by decide, by decide⟩
  · simp [handle_group_message, h]
  · unfold handle_group_message
    by_cases hn : nick = cfg
    · simp [hn]
    · simp [hn, h1, h2]

/-- C3 witness: a self message is not dispatched. -/
theorem handle_group_message_routing_witness :
    (("Bot") : String) = ("Bot") ∧
      handle_group_message ("Bot") ("Bot") ("!time") = none :=
  ⟨rfl, handle_group_message_routing.1 ("Bot") ("Bot") ("!time") rfl⟩

/-- C4: `uptime_str` always ends with the seconds field; when the elapsed
time is under a day the output has no `'d'`, under an hour no `'h'`, and
under a minute it is exactly the bare seconds field; 90061 seconds format as
`"1d 1h 1m 1s"` and 45 seconds as `"45s"`. -/
theorem cmd_uptime_format :
    (∀ n : Nat, (natDec (n % 60) ++ ("s")).data <:+ (uptime_str n).data) ∧
    (∀ n : Nat, n < 86400 → 'd' ∉ (uptime_str n).data) ∧
    (∀ n : Nat, n < 3600 → 'h' ∉ (uptime_str n).data) ∧
    (∀ n : Nat, n < 60 → uptime_str n = natDec n ++ ("s")) ∧
    uptime_str 90061 = "1d 1h 1m 1s" ∧
    uptime_str 45 = "45s" ∧
    cmd_uptime 90061 = "⏱️ Bot uptime: 1d 1h 1m 1s" := by
  refine ⟨fun n => ?_, fun n h hd => ?_, fun n h hh => ?_, fun n h => ?_,
    by decide, by decide, by decide⟩
  · refine ⟨(((if n / 86400 > 0 then natDec (n / 86400) ++ ("d ") else "") ++
      (if n % 86400 / 3600 > 0 then natDec (n % 86400 / 3600) ++ ("h ") else "")) ++
        (if n % 3600 / 60 > 0 then natDec (n % 3600 / 60) ++ ("m ") else "")).data, ?_⟩
    simp [uptime_str, pydata_append, List.append_assoc]
  · rcases uptime_str_chars n 'd' hd with h1 | h1 | h1 | h1 | h1 | h1
    · exact absurd h1 (by decide)
    · omega
    · exact absurd h1.1 (by decide)
    · exact absurd h1.1 (by decide)
    · exact absurd h1 (by decide)
    · exact absurd h1 (by decide)
  · rcases uptime_str_chars n 'h' hh with h1 | h1 | h1 | h1 | h1 | h1
    · exact absurd h1 (by decide)
    · exact absurd h1.1 (by decide)
    · omega
    · exact absurd h1.1 (by decide)
    · exact absurd h1 (by decide)
    · exact absurd h1 (by decide)
  · have h1 : n / 86400 = 0 := by omega
    have h2 : n % 86400 / 3600 = 0 := by omega
    have h3 : n % 3600 / 60 = 0 := by omega
    have h4 : n % 60 = n := by omega
    simp [uptime_str, h1, h2, h3, h4, pynil_append]

/-- C4 witness: the formatting theorem applied at 45 seconds. -/
theorem cmd_uptime_format_witness :
    45 < 60 ∧ uptime_str 45 = natDec 45 ++ ("s") :=
  ⟨by decide, cmd_uptime_format.2.2.2.1 45 (by decide)⟩

/-- C5 counterexample: Python's `$` also matches just before a newline that
ends the string, so `is_valid_hostname` accepts `"abc\n"`, which contains a
character outside the claim's allow-list. -/
theorem is_valid_hostname_cex :
    is_valid_hostname ("abc\n") = true ∧
      spec_hostname_allowed ("abc\n") = false := by
  decide

/-- C5 (amended): on every nonempty whitespace-free string — which is what a
ping argument produced by the dispatcher's whitespace tokenization can be —
the source's validator agrees exactly with the spec's condition
(alphanumerics, dot, hyphen only; length ≤ 253); in general a string that is
valid except for one final newline is also accepted (Python's `$` quirk).
Any rejected target makes `cmd_ping` return the validation-error response
with no probe, any accepted target is probed, `"evil;rm -rf /"` is rejected
whether taken whole or tokenized, and `"example.com"` passes. -/
theorem ping_validation :
    (∀ h : String, h.data ≠ [] → (∀ c ∈ h.data, c.isWhitespace = false) →
      is_valid_hostname h = spec_hostname_allowed h) ∧
    (∀ args : List String,
      is_valid_hostname (args.headD ("google.com")) = false →
      cmd_ping_action args = PingAction.validationError ("❌ Invalid hostname format")) ∧
    (∀ args : List String,
      is_valid_hostname (args.headD ("google.com")) = true →
      cmd_ping_action args = PingAction.probe (args.headD ("google.com"))) ∧
    (∀ l : List Char, l ≠ [] → l.all hostChar = true → l.length + 1 ≤ 253 →
      is_valid_hostname ⟨l ++ ['\n']⟩ = true) ∧
    is_valid_hostname ("evil;rm -rf /") = false ∧
    cmd_ping_action [("evil;rm -rf /")] = PingAction.validationError ("❌ Invalid hostname format") ∧
    cmd_ping_action [("evil;rm"), ("-rf"), ("/")] = PingAction.validationError ("❌ Invalid hostname format") ∧
    is_valid_hostname ("example.com") = true := by
  refine ⟨fun h hne hw => ?_, fun args hv => ?_, fun args hv => ?_,
    fun l hne hall hlen => ?_, by decide, by decide, by decide, by decide⟩
  · have hlast : ¬ (h.data.getLast? = some '\n') := by
      intro hl
      have hm := List.mem_of_getLast?_eq_some hl
      exact absurd (hw _ hm) (by decide)
    unfold is_valid_hostname re_match_hostname spec_hostname_allowed
    rcases hd : h.data with _ | ⟨c0, cs⟩
    · exact absurd hd hne
    · rw [hd] at hlast
      have hfalse : decide ((c0 :: cs).getLast? = some '\n') = false :=
        decide_eq_false hlast
      simp [hfalse]
  · simp only [cmd_ping_action]
    rw [hv]
    simp
  · simp only [cmd_ping_action]
    rw [hv]
    simp
  · unfold is_valid_hostname re_match_hostname
    have h1 : (String.mk (l ++ ['\n'])).data = l ++ ['\n'] := rfl
    rw [h1]
    simp [List.getLast?_concat, hall, hne, hlen]

/-- C5 witness: the tokenized injection attempt is rejected with no probe. -/
theorem ping_validation_witness :
    is_valid_hostname ([("evil;rm"), ("-rf"), ("/")].headD ("google.com")) = false ∧
      cmd_ping_action [("evil;rm"), ("-rf"), ("/")]
        = PingAction.validationError ("❌ Invalid hostname format") :=
  ⟨by decide, ping_validation.2.1 [("evil;rm"), ("-rf"), ("/")] (by decide)⟩

/-- C9 counterexample: `process_command` case-folds the first token before
anything else, so the unknown-command response carries the lowercased name,
not the name as it appeared in the input: dispatching `"Frobnicate"` yields
the response for `"frobnicate"`, and the literal input text `"Frobnicate"`
does not occur in it. -/
theorem process_command_unknown_cex :
    process_command ("Frobnicate")
        = Dispatch.unknown (unknown_response ("frobnicate")) ∧
      ¬ (("Frobnicate").data <:+: (unknown_response ("frobnicate")).data) := by
  constructor
  · decide
  · decide

/-- C9 (amended): for every input whose first whitespace-delimited token
case-folds to something outside the command registry, dispatch
deterministically returns the unknown-command response, which contains the
case-folded command name, the literal text `"help"`, and the error marker. -/
theorem process_command_unknown (text c : String) (rest : List String)
    (h : pyWords (pyStrip text) = c :: rest) (hnc : pyLower c ∉ commands_list) :
    process_command text = Dispatch.unknown (unknown_response (pyLower c)) ∧
    (pyLower c).data <:+: (unknown_response (pyLower c)).data ∧
    ("help").data <:+: (unknown_response (pyLower c)).data ∧
    pyStartsWith (unknown_response (pyLower c)) ("❓") = true := by
  refine ⟨?_, ?_, ?_, rfl⟩
  · unfold process_command
    by_cases ht : text = ""
    · subst ht
      rw [show pyWords (pyStrip ("")) = [] from rfl] at h
      cases h

    · simp [ht, h, hnc]
  · exact ⟨("❓ Unknown command " ++ squot).data,
      (squot ++ (". Type " ++ (squot ++ (("help") ++ (squot ++ " for available commands."))))).data,
      by simp [unknown_response, pydata_append, List.append_assoc]⟩
  · exact ⟨("❓ Unknown command " ++ (squot ++ (pyLower c ++ (squot ++ (". Type " ++ squot))))).data,
      (squot ++ " for available commands.").data,
      by simp [unknown_response, pydata_append, List.append_assoc]⟩

/-- C9 witness: the amended theorem applied to the input `"frobnicate"`. -/
theorem process_command_unknown_witness :
    pyWords (pyStrip ("frobnicate")) = [("frobnicate")] ∧
      pyLower ("frobnicate") ∉ commands_list ∧
      process_command ("frobnicate")
        = Dispatch.unknown (unknown_response (pyLower ("frobnicate"))) :=
  ⟨by decide, by decide,
    (process_command_unknown ("frobnicate") ("frobnicate") [] (by decide) (by decide)).1⟩

end Claims
